import Mathlib

/-!
# Shallow embedding of the checkout / payment-reconciliation core of `app.py`

This file embeds, as executable Lean definitions, the database rows and the
request handlers of the Flask application in `src/app.py` that the claims
refer to: `add_to_cart`, `update_cart`, the POST branch of `checkout`, and
`razorpay_webhook`.

Modelling conventions:
* The SQLAlchemy session/tables are a record of lists (`DB`).  A commit point
  in the Python code corresponds to a constructed intermediate state; a
  `db.session.rollback()` corresponds to returning the last committed state.
* Python `int` columns (`stock`, `quantity`) are `Int`.  Prices are `Float`
  in Python; no claim depends on floating-point rounding, so prices are
  carried as `Int` (only stored and summed, never branched on).
* `Model.query.get_or_404` / `.first()` become `Option`-valued lookups; a
  code path that would raise an uncaught exception inside a handler is
  modelled by `Option.none` at the handler's result type.
* Order status is the literal string column of the code
  (`"Pending"`, `"Payment Initiated"`, `"Confirmed"`, `"Payment Failed"`).
* The Razorpay SDK call and HMAC-SHA256 are external effects: the gateway
  call outcome is a `GatewayResult` argument, and the webhook handler is
  parameterised by the (pure) `hmacSha256` function and the JSON
  parse/navigation function, both applied exactly where the code applies
  them.
-/

namespace Shop

/-- Row of the `user` table (the fields the embedded handlers touch). -/
structure User where
  id : Nat
  address : String
  contact_number : String
  deriving Repr, DecidableEq

/-- Row of the `product` table.  `stock` is a Python `int` column. -/
structure Product where
  id : Nat
  price : Int
  stock : Int
  deriving Repr, DecidableEq

/-- Row of the `cart_item` table. -/
structure CartItem where
  id : Nat
  user_id : Nat
  product_id : Nat
  quantity : Int
  deriving Repr, DecidableEq

/-- Row of the `order` table.  `status` is the literal string column. -/
structure Order where
  id : Nat
  user_id : Nat
  total_amount : Int
  status : String
  delivery_address : String
  contact_number : String
  payment_mode : String
  transaction_id : Option String
  deriving Repr, DecidableEq

/-- Row of the `order_item` table: immutable snapshot at purchase time. -/
structure OrderItem where
  id : Nat
  order_id : Nat
  product_id : Nat
  quantity : Int
  price : Int
  deriving Repr, DecidableEq

/-- The persistent store: one list per table, plus autoincrement counters. -/
structure DB where
  users : List User
  products : List Product
  cartItems : List CartItem
  orders : List Order
  orderItems : List OrderItem
  nextCartItemId : Nat
  nextOrderId : Nat
  nextOrderItemId : Nat
  deriving Repr, DecidableEq

/-- `User.query.get(user_id)`. -/
def findUser (db : DB) (uid : Nat) : Option User :=
  db.users.find? (fun u => u.id == uid)

/-- `Product.query.get(product_id)` / the `product` relationship. -/
def findProduct (db : DB) (pid : Nat) : Option Product :=
  db.products.find? (fun p => p.id == pid)

/-- `CartItem.query.get(item_id)`. -/
def findCartItem (db : DB) (cid : Nat) : Option CartItem :=
  db.cartItems.find? (fun ci => ci.id == cid)

/-- `CartItem.query.filter_by(user_id=user_id).all()`. -/
def userCart (db : DB) (uid : Nat) : List CartItem :=
  db.cartItems.filter (fun ci => ci.user_id == uid)

/-- Stock of a product by id, when the row exists. -/
def stockOf (db : DB) (pid : Nat) : Option Int :=
  (findProduct db pid).map Product.stock

/-- Status of an order by id, when the row exists. -/
def orderStatusOf (db : DB) (oid : Nat) : Option String :=
  (db.orders.find? (fun o => o.id == oid)).map Order.status

/--
Handler `add_to_cart` (`src/app.py` lines 256-278), for the logged-in
user `uid`.  `get_or_404` on a missing product is `none`; every other
path flashes a message and commits, returning the resulting store.
-/
def add_to_cart (db : DB) (uid pid : Nat) : Option DB :=
  match findProduct db pid with
  | none => none
  | some product =>
    if product.stock ≤ 0 then
      some db
    else
      match db.cartItems.find? (fun ci => ci.user_id == uid && ci.product_id == pid) with
      | some cart_item =>
        if cart_item.quantity ≥ product.stock then
          some db
        else
          some { db with cartItems := db.cartItems.map (fun ci =>
                   if ci.id == cart_item.id then { ci with quantity := ci.quantity + 1 } else ci) }
      | none =>
        some { db with
                 cartItems := db.cartItems ++ [⟨db.nextCartItemId, uid, pid, 1⟩],
                 nextCartItemId := db.nextCartItemId + 1 }

/--
Handler `update_cart` (`src/app.py` lines 280-307), for session user
`uid` on cart item `cid`.  `qtyForm = none` models a non-integer form
value (`ValueError`: flash only, no state change).  A missing cart item
row is `get_or_404` (`none` result); a missing product row would raise
on `product.stock` (`none` result).
-/
def update_cart (db : DB) (uid cid : Nat) (qtyForm : Option Int) : Option DB :=
  match findCartItem db cid with
  | none => none
  | some cart_item =>
    if cart_item.user_id != uid then
      some db
    else
      match qtyForm with
      | none => some db
      | some new_quantity =>
        match findProduct db cart_item.product_id with
        | none => none
        | some product =>
          if new_quantity < 0 then
            some db
          else if new_quantity == 0 then
            some { db with cartItems := db.cartItems.filter (fun ci => ci.id != cart_item.id) }
          else if new_quantity > product.stock then
            some { db with cartItems := db.cartItems.map (fun ci =>
                     if ci.id == cart_item.id then { ci with quantity := product.stock } else ci) }
          else
            some { db with cartItems := db.cartItems.map (fun ci =>
                     if ci.id == cart_item.id then { ci with quantity := new_quantity } else ci) }

/-- Outcome of the Razorpay `client.order.create` call, abstracted: the SDK
either returns a gateway order id or raises (network failure, rejection). -/
inductive GatewayResult where
  | success (ref : String)
  | failure
  deriving Repr, DecidableEq

/-- The user-visible outcome of a POST to `checkout`. -/
inductive CheckoutResult where
  | cartEmpty
  | insufficientStock (pid : Nat)
  | paymentPage (ref : String) (oid : Nat)
  | gatewayError
  | notConfigured
  | codPlaced (oid : Nat)
  deriving Repr, DecidableEq

/-- `sum(item.product.price * item.quantity for item in cart_items)`;
`none` if a referenced product row is missing. -/
def cartTotal (db : DB) : List CartItem → Option Int
  | [] => some 0
  | ci :: rest =>
    match findProduct db ci.product_id, cartTotal db rest with
    | some p, some t => some (p.price * ci.quantity + t)
    | _, _ => none

/-- The stock-check loop of `checkout` (`src/app.py` lines 357-361): the
first cart item whose quantity exceeds its product's stock, scanning in
list order.  `none` models a crash on a dangling product reference;
`some none` means every item passed the check. -/
def firstInsufficient (db : DB) : List CartItem → Option (Option Nat)
  | [] => some none
  | ci :: rest =>
    match findProduct db ci.product_id with
    | none => none
    | some p =>
      if ci.quantity > p.stock then some (some p.id)
      else firstInsufficient db rest

/-- `item.product.stock -= item.quantity`, applied for every cart item of
the order (`src/app.py` line 384). -/
def reserveAll (products : List Product) : List CartItem → List Product
  | [] => products
  | ci :: rest =>
    reserveAll
      (products.map (fun p =>
        if p.id == ci.product_id then { p with stock := p.stock - ci.quantity } else p))
      rest

/-- The `OrderItem` snapshots created by the loop at `src/app.py`
lines 376-383, with autoincrement ids from `startId`. -/
def mkOrderItems (db : DB) (startId oid : Nat) : List CartItem → Option (List OrderItem)
  | [] => some []
  | ci :: rest =>
    match findProduct db ci.product_id, mkOrderItems db (startId + 1) oid rest with
    | some p, some items => some (⟨startId, oid, ci.product_id, ci.quantity, p.price⟩ :: items)
    | _, _ => none

/-- The profile update committed at `src/app.py` lines 352-354. -/
def updateProfile (db : DB) (uid : Nat) (addr contact : String) : DB :=
  { db with users := db.users.map (fun u =>
      if u.id == uid then { u with address := addr, contact_number := contact } else u) }

/--
The POST branch of handler `checkout` (`src/app.py` lines 331-434) for
logged-in user `uid`.  `cfg` is whether the Razorpay library and both keys
are configured; `gw` is the outcome of the `client.order.create` call when
it is made.  Commit points of the code delimit the returned store:
* the profile update is committed before the stock check, so stock-check
  failure still returns the profile-updated store;
* order / order items / stock decrement / COD cart deletion are flushed in
  one transaction, committed on success and rolled back (returning the
  profile-updated store) when the gateway call fails or is unconfigured;
* an online-mode success additionally stores the gateway reference as
  `transaction_id` and sets status `"Payment Initiated"` before the commit.
-/
def checkout (db : DB) (uid : Nat) (delivery_address contact_number payment_mode : String)
    (cfg : Bool) (gw : GatewayResult) : Option (CheckoutResult × DB) :=
  match findUser db uid with
  | none => none
  | some _ =>
    let cart_items := userCart db uid
    if cart_items.isEmpty then some (.cartEmpty, db)
    else
      match cartTotal db cart_items with
      | none => none
      | some total_amount =>
        let db1 := updateProfile db uid delivery_address contact_number
        match firstInsufficient db1 cart_items with
        | none => none
        | some (some pid) => some (.insufficientStock pid, db1)
        | some none =>
          let oid := db1.nextOrderId
          let new_order : Order :=
            ⟨oid, uid, total_amount, "Pending", delivery_address, contact_number,
             payment_mode, none⟩
          match mkOrderItems db1 db1.nextOrderItemId oid cart_items with
          | none => none
          | some items =>
            let db2 : DB :=
              { db1 with
                  orders := db1.orders ++ [new_order],
                  orderItems := db1.orderItems ++ items,
                  products := reserveAll db1.products cart_items,
                  cartItems :=
                    if payment_mode == "COD" then
                      db1.cartItems.filter (fun ci => ci.user_id != uid)
                    else db1.cartItems,
                  nextOrderId := oid + 1,
                  nextOrderItemId := db1.nextOrderItemId + cart_items.length }
            if payment_mode == "UPI" || payment_mode == "Debit Card" then
              if cfg then
                match gw with
                | .success ref =>
                  some (.paymentPage ref oid,
                    { db2 with orders := db2.orders.map (fun o =>
                        if o.id == oid then
                          { o with transaction_id := some ref, status := "Payment Initiated" }
                        else o) })
                | .failure => some (.gatewayError, db1)
              else some (.notConfigured, db1)
            else some (.codPlaced oid, db2)

/-- The payment entity navigated out of a recognized webhook event:
`event['payload']['payment']['entity']` with `.id`, `.order_id`, and the
two `notes.get(...)` fields (absent key gives `none`). -/
structure PaymentEntity where
  payment_id : String
  order_id : String
  internal_order_id : Option Nat
  user_id : Option Nat
  deriving Repr, DecidableEq

/-- Result of `json.loads(payload)` plus the dictionary navigation the
handler performs: `badJson` is a `json.JSONDecodeError` (HTTP 400);
`keyError` is a missing `event` key (uncaught `KeyError`, HTTP 500);
`event t pay` carries the event-type string and, for navigation under
`payload.payment.entity`, `pay = none` models a missing key there
(uncaught `KeyError`, HTTP 500, reached only for recognized types). -/
inductive Parsed where
  | badJson
  | keyError
  | event (eventType : String) (pay : Option PaymentEntity)
  deriving Repr, DecidableEq

/-- Python truthiness of an optional integer note value
(`if internal_order_id and user_id_from_notes`). -/
def truthyNat : Option Nat → Bool
  | none => false
  | some n => n != 0

/-- `Order.query.filter_by(id=internal_order_id, transaction_id=razorpay_order_id).first()`. -/
def findOrderByRef (db : DB) (oid : Nat) (ref : String) : Option Order :=
  db.orders.find? (fun o => o.id == oid && o.transaction_id == some ref)

/-- State change of a verified `payment.captured` event
(`src/app.py` lines 555-578): guard on truthy note ids, look up the order
by (internal id, gateway reference), require status `"Payment Initiated"`,
then set status `"Confirmed"` and delete every cart item whose `user_id`
is the note's user id.  All other paths leave the store unchanged. -/
def applyCaptured (db : DB) (p : PaymentEntity) : DB :=
  if truthyNat p.internal_order_id && truthyNat p.user_id then
    let internal_order_id := p.internal_order_id.getD 0
    let user_id_from_notes := p.user_id.getD 0
    match findOrderByRef db internal_order_id p.order_id with
    | some order =>
      if order.status == "Payment Initiated" then
        { db with
            orders := db.orders.map (fun o =>
              if o.id == internal_order_id then { o with status := "Confirmed" } else o),
            cartItems := db.cartItems.filter (fun ci => ci.user_id != user_id_from_notes) }
      else db
    | none => db
  else db

/-- State change of a verified `payment.failed` event
(`src/app.py` lines 581-595): guard on a truthy internal order id only
(the user id note is never read), look up the order by (internal id,
gateway reference), require status `"Payment Initiated"`, then set status
`"Payment Failed"`.  No other row is touched. -/
def applyFailed (db : DB) (p : PaymentEntity) : DB :=
  if truthyNat p.internal_order_id then
    let internal_order_id := p.internal_order_id.getD 0
    match findOrderByRef db internal_order_id p.order_id with
    | some order =>
      if order.status == "Payment Initiated" then
        { db with orders := db.orders.map (fun o =>
            if o.id == internal_order_id then { o with status := "Payment Failed" } else o) }
      else db
    | none => db
  else db

/--
Handler `razorpay_webhook` (`src/app.py` lines 523-610).  `hmacSha256` is
the pure HMAC-SHA256-hexdigest function (external primitive, applied to
the configured secret and the raw payload exactly as the code does);
`parse` is `json.loads` plus dictionary navigation; `keySecret` is
`app.config.get('RAZORPAY_KEY_SECRET')`; `sigHeader` is the
`x-razorpay-signature` request header.  Returns the (body, HTTP status)
response and the resulting store.
-/
def razorpay_webhook (hmacSha256 : String → String → String) (parse : String → Parsed)
    (keySecret : Option String) (db : DB) (payload : String) (sigHeader : Option String) :
    (String × Nat) × DB :=
  match sigHeader with
  | none => (("Unauthorized", 401), db)
  | some razorpay_signature =>
    match keySecret with
    | none => (("Internal Server Error", 500), db)
    | some key_secret =>
      if hmacSha256 key_secret payload == razorpay_signature then
        match parse payload with
        | .badJson => (("Invalid JSON", 400), db)
        | .keyError => (("Internal Server Error", 500), db)
        | .event event_type pay =>
          if event_type == "payment.captured" then
            match pay with
            | none => (("Internal Server Error", 500), db)
            | some p => (("OK", 200), applyCaptured db p)
          else if event_type == "payment.failed" then
            match pay with
            | none => (("Internal Server Error", 500), db)
            | some p => (("OK", 200), applyFailed db p)
          else (("OK", 200), db)
      else (("Signature mismatch", 400), db)

/-- One state-mutating request against the store: the four operations the
cart-quantity claim quantifies over.  A webhook operation carries its
already-verified, already-parsed event (signature checking does not touch
the store, so only the applied event matters for state). -/
inductive Op where
  | addToCart (uid pid : Nat)
  | updateCart (uid cid : Nat) (qtyForm : Option Int)
  | checkoutOp (uid : Nat) (addr contact mode : String) (cfg : Bool) (gw : GatewayResult)
  | webhookEvent (p : Parsed)
  deriving Repr, DecidableEq

/-- Apply one operation; `none` propagates a crashing handler path. -/
def applyOp (db : DB) : Op → Option DB
  | .addToCart uid pid => add_to_cart db uid pid
  | .updateCart uid cid q => update_cart db uid cid q
  | .checkoutOp uid a c m cfg gw => (checkout db uid a c m cfg gw).map Prod.snd
  | .webhookEvent p =>
    match p with
    | .event t (some e) =>
      if t == "payment.captured" then some (applyCaptured db e)
      else if t == "payment.failed" then some (applyFailed db e)
      else some db
    | _ => some db

/-- Run a sequence of operations left to right. -/
def runOps (db : DB) : List Op → Option DB
  | [] => some db
  | op :: rest =>
    match applyOp db op with
    | none => none
    | some db1 => runOps db1 rest

/-- The claimed cart invariant: every existing cart item references an
existing product and its quantity lies in `[1, product.stock]`. -/
def cartInvB (db : DB) : Bool :=
  db.cartItems.all (fun ci =>
    match findProduct db ci.product_id with
    | some p => 1 ≤ ci.quantity && ci.quantity ≤ p.stock
    | none => false)

/-- Total quantity a cart holds of one product (observer used in theorem
statements about stock reservation). -/
def cartQty (cart : List CartItem) (pid : Nat) : Int :=
  (cart.filter (fun ci => ci.product_id == pid)).foldr (fun ci t => ci.quantity + t) 0

/-! ### Concrete states used by counterexamples and witnesses

`dbW` is a store in the middle of an online payment: order 7 (owner:
user 1, gateway reference "rzp_1") is in status `"Payment Initiated"`
and holds one unit of product 2, whose stock was reserved down to 0 at
checkout; user 1's cart was retained (rows for products 1 and 2), and
user 2 independently has product 1 in their cart. -/

def wOrder : Order := ⟨7, 1, 20, "Payment Initiated", "addr1", "c1", "UPI", some "rzp_1"⟩

def dbW : DB :=
  ⟨[⟨1, "addr1", "c1"⟩, ⟨2, "addr2", "c2"⟩],
   [⟨1, 10, 5⟩, ⟨2, 20, 0⟩],
   [⟨1, 1, 1, 2⟩, ⟨2, 1, 2, 1⟩, ⟨3, 2, 1, 1⟩],
   [wOrder],
   [⟨1, 7, 2, 1, 20⟩],
   4, 8, 2⟩

/-- A concrete stand-in for the HMAC-SHA256 primitive at witness points
(the theorems hold for every hash function). -/
def hmacConst : String → String → String := fun _ _ => "SIG"

/-- Parse result: a `payment.failed` event for order 7 with complete notes. -/
def parseFailedFull : String → Parsed :=
  fun _ => .event "payment.failed" (some ⟨"pay_9", "rzp_1", some 7, some 1⟩)

/-- Parse result: a `payment.failed` event for order 7 whose notes lack
`user_id`. -/
def parseFailedNoUser : String → Parsed :=
  fun _ => .event "payment.failed" (some ⟨"pay_9", "rzp_1", some 7, none⟩)

/-- Parse result: a `payment.captured` event for order 7, notes user 1
(the order's owner). -/
def parseCapturedU1 : String → Parsed :=
  fun _ => .event "payment.captured" (some ⟨"pay_9", "rzp_1", some 7, some 1⟩)

/-- Parse result: a `payment.captured` event for order 7 whose notes carry
user 2, who is not the owner of order 7. -/
def parseCapturedU2 : String → Parsed :=
  fun _ => .event "payment.captured" (some ⟨"pay_9", "rzp_1", some 7, some 2⟩)

/-- Parse result: a `payment.captured` event whose notes lack the internal
order id. -/
def parseCapturedNoId : String → Parsed :=
  fun _ => .event "payment.captured" (some ⟨"pay_9", "rzp_1", none, some 1⟩)

/-- A store with one user whose cart holds 1 unit of product 1 (stock 5). -/
def dbC : DB := ⟨[⟨1, "a", "c"⟩], [⟨1, 10, 5⟩], [⟨1, 1, 1, 1⟩], [], [], 2, 1, 1⟩

/-- A store with one user whose cart holds 2 units of product 1, but only
1 unit is in stock. -/
def dbI : DB := ⟨[⟨1, "a", "c"⟩], [⟨1, 10, 1⟩], [⟨1, 1, 1, 2⟩], [], [], 2, 1, 1⟩

/-- A store with an empty cart and product 2 in stock (1 unit). -/
def dbC0 : DB := ⟨[⟨1, "a", "c"⟩], [⟨2, 20, 1⟩], [], [], [], 1, 1, 1⟩

/-- The result of `add_to_cart dbC0 1 2`. -/
def dbAdd : DB := ⟨[⟨1, "a", "c"⟩], [⟨2, 20, 1⟩], [⟨1, 1, 2, 1⟩], [], [], 2, 1, 1⟩

/-- Add product 2 to user 1's cart, then check out online successfully:
stock is reserved while the cart rows are retained. -/
def opsC8 : List Op :=
  [.addToCart 1 2, .checkoutOp 1 "addr" "cn" "UPI" true (.success "rzp_9")]

/-! ## Helper lemmas -/

theorem find?_map_of_pred_eq {α : Type} (f : α → α) (q : α → Bool)
    (hq : ∀ x, q (f x) = q x) (l : List α) :
    (l.map f).find? q = (l.find? q).map f := by
  rw [List.find?_map]
  have : q ∘ f = q := funext hq
  rw [this]

@[simp] theorem updateProfile_products (db : DB) (uid : Nat) (a c : String) :
    (updateProfile db uid a c).products = db.products := rfl

@[simp] theorem updateProfile_orders (db : DB) (uid : Nat) (a c : String) :
    (updateProfile db uid a c).orders = db.orders := rfl

@[simp] theorem updateProfile_orderItems (db : DB) (uid : Nat) (a c : String) :
    (updateProfile db uid a c).orderItems = db.orderItems := rfl

@[simp] theorem updateProfile_cartItems (db : DB) (uid : Nat) (a c : String) :
    (updateProfile db uid a c).cartItems = db.cartItems := rfl

theorem findProduct_updateProfile (db : DB) (uid : Nat) (a c : String) (pid : Nat) :
    findProduct (updateProfile db uid a c) pid = findProduct db pid := rfl

/-- Reducing `razorpay_webhook` on a verified, parsed event. -/
theorem razorpay_webhook_verified (hmacSha256 : String → String → String)
    (parse : String → Parsed) (key_secret payload sig : String) (db : DB)
    (t : String) (pay : Option PaymentEntity)
    (hsig : hmacSha256 key_secret payload = sig)
    (hparse : parse payload = .event t pay) :
    razorpay_webhook hmacSha256 parse (some key_secret) db payload (some sig) =
      (if t == "payment.captured" then
        match pay with
        | none => (("Internal Server Error", 500), db)
        | some p => (("OK", 200), applyCaptured db p)
      else if t == "payment.failed" then
        match pay with
        | none => (("Internal Server Error", 500), db)
        | some p => (("OK", 200), applyFailed db p)
      else (("OK", 200), db)) := by
  unfold razorpay_webhook
  simp only [hsig, hparse, beq_self_eq_true, if_true]
  cases pay <;> rfl

/-- Rewriting the status column of some rows commutes with the
(id, transaction_id) lookup, because the lookup never reads the status. -/
theorem find?_orders_status_update (l : List Order) (oid : Nat) (ref s : String) :
    (l.map (fun o2 => if o2.id == oid then { o2 with status := s } else o2)).find?
      (fun o2 => o2.id == oid && o2.transaction_id == some ref)
    = (l.find? (fun o2 => o2.id == oid && o2.transaction_id == some ref)).map
      (fun o2 => if o2.id == oid then { o2 with status := s } else o2) := by
  apply find?_map_of_pred_eq
  intro x
  by_cases hx : (x.id == oid) = true
  · simp [hx]
  · simp [hx]

/-- `applyCaptured` leaves the store untouched whenever the looked-up
order is not in status `"Payment Initiated"`. -/
theorem applyCaptured_noop (db : DB) (p : PaymentEntity)
    (h : ∀ o, findOrderByRef db (p.internal_order_id.getD 0) p.order_id = some o →
      (o.status == "Payment Initiated") = false) :
    applyCaptured db p = db := by
  unfold applyCaptured
  by_cases h1 : (truthyNat p.internal_order_id && truthyNat p.user_id) = true
  · rw [if_pos h1]
    cases hf : findOrderByRef db (p.internal_order_id.getD 0) p.order_id with
    | none => simp only [hf]
    | some o =>
      simp only [hf, h o hf, Bool.false_eq_true, if_false, ite_false]
  · rw [if_neg h1]

/-! ## Claim theorems -/

/--
Claim C1, counterexample.  In `dbW`, order 7 is in `"Payment Initiated"`
and holds one unit of product 2, whose stock stands at 0.  A verified
`payment.failed` webhook matching (order 7, reference "rzp_1") transitions
the order to `"Payment Failed"` but leaves product 2's stock at 0: the
reserved unit is not restored, contradicting the claimed stock restore
(which would give stock 1).
-/
theorem failed_event_no_restock_cex :
    (razorpay_webhook hmacConst parseFailedFull (some "secret") dbW "body" (some "SIG")).1
      = ("OK", 200) ∧
    orderStatusOf (razorpay_webhook hmacConst parseFailedFull (some "secret") dbW "body"
      (some "SIG")).2 7 = some "Payment Failed" ∧
    stockOf (razorpay_webhook hmacConst parseFailedFull (some "secret") dbW "body"
      (some "SIG")).2 2 = some 0 ∧
    ¬ stockOf (razorpay_webhook hmacConst parseFailedFull (some "secret") dbW "body"
      (some "SIG")).2 2 = some 1 := by
  refine ⟨rfl, rfl, rfl, ?_⟩
  decide

/--
Claim C1, amended.  For every order in status `"Payment Initiated"`, a
verified `payment.failed` webhook whose (internal order id, gateway
reference) pair matches the order transitions it to `"Payment Failed"`,
but does not restore the reserved stock: the product table is returned
unchanged (the handler at `src/app.py` lines 581-595 only rewrites the
status column).
-/
theorem failed_event_marks_failed_keeps_stock
    (hmacSha256 : String → String → String) (parse : String → Parsed)
    (key_secret payload sig : String) (db : DB) (p : PaymentEntity) (o : Order)
    (hsig : hmacSha256 key_secret payload = sig)
    (hparse : parse payload = .event "payment.failed" (some p))
    (hio : p.internal_order_id = some o.id) (ho : o.id ≠ 0)
    (hfind : findOrderByRef db o.id p.order_id = some o)
    (hst : o.status = "Payment Initiated") :
    razorpay_webhook hmacSha256 parse (some key_secret) db payload (some sig) =
      (("OK", 200),
       { db with orders := db.orders.map (fun o2 =>
           if o2.id == o.id then { o2 with status := "Payment Failed" } else o2) }) ∧
    (razorpay_webhook hmacSha256 parse (some key_secret) db payload (some sig)).2.products
      = db.products := by
  have h1 := razorpay_webhook_verified hmacSha256 parse key_secret payload sig db
    "payment.failed" (some p) hsig hparse
  simp only [show (("payment.failed" : String) == "payment.captured") = false from rfl,
    show (("payment.failed" : String) == "payment.failed") = true from rfl,
    if_false, if_true, Bool.false_eq_true, ite_false, ite_true] at h1
  have h2 : applyFailed db p =
      { db with orders := db.orders.map (fun o2 =>
          if o2.id == o.id then { o2 with status := "Payment Failed" } else o2) } := by
    unfold applyFailed
    rw [hio]
    have htr : truthyNat (some o.id) = true := by
      simp only [truthyNat, bne_iff_ne, ne_eq]
      exact ho
    simp only [htr, if_true, Option.getD_some, hfind, hst, beq_self_eq_true]
  rw [h1, h2]
  exact ⟨rfl, rfl⟩

/-- Claim C1 witness: the amended theorem applied to the concrete store
`dbW` and the concrete failed event. -/
theorem failed_event_marks_failed_keeps_stock_witness :
    razorpay_webhook hmacConst parseFailedFull (some "secret") dbW "body" (some "SIG") =
      (("OK", 200),
       { dbW with orders := dbW.orders.map (fun o2 =>
           if o2.id == wOrder.id then { o2 with status := "Payment Failed" } else o2) }) ∧
    (razorpay_webhook hmacConst parseFailedFull (some "secret") dbW "body" (some "SIG")).2.products
      = dbW.products :=
  failed_event_marks_failed_keeps_stock hmacConst parseFailedFull "secret" "body" "SIG"
    dbW ⟨"pay_9", "rzp_1", some 7, some 1⟩ wOrder rfl rfl rfl (by decide) rfl rfl

/--
Claim C4.  A verified `payment.captured` webhook matching an order in
status `"Payment Initiated"` performs exactly one status transition (to
`"Confirmed"`) and one cart mutation (deleting the note user's cart rows);
re-delivering the very same webhook against the resulting store is a
recorded no-op: the `status == "Payment Initiated"` guard is re-checked on
the freshly looked-up (internal order id, gateway reference) pair and now
fails, so the second delivery returns `OK` and changes nothing.
-/
theorem captured_webhook_idempotent
    (hmacSha256 : String → String → String) (parse : String → Parsed)
    (key_secret payload sig : String) (db : DB) (p : PaymentEntity) (o : Order) (u : Nat)
    (r1 : String × Nat) (db1 : DB)
    (hsig : hmacSha256 key_secret payload = sig)
    (hparse : parse payload = .event "payment.captured" (some p))
    (hio : p.internal_order_id = some o.id) (ho : o.id ≠ 0)
    (hu : p.user_id = some u) (hu0 : u ≠ 0)
    (hfind : findOrderByRef db o.id p.order_id = some o)
    (hst : o.status = "Payment Initiated")
    (h1 : razorpay_webhook hmacSha256 parse (some key_secret) db payload (some sig) = (r1, db1)) :
    r1 = ("OK", 200) ∧
    db1.orders = db.orders.map (fun o2 =>
      if o2.id == o.id then { o2 with status := "Confirmed" } else o2) ∧
    db1.cartItems = db.cartItems.filter (fun ci => ci.user_id != u) ∧
    razorpay_webhook hmacSha256 parse (some key_secret) db1 payload (some sig)
      = (("OK", 200), db1) := by
  have htr : truthyNat (some o.id) = true := by
    simp only [truthyNat, bne_iff_ne, ne_eq]
    exact ho
  have htru : truthyNat (some u) = true := by
    simp only [truthyNat, bne_iff_ne, ne_eq]
    exact hu0
  have happly : applyCaptured db p =
      { db with
          orders := db.orders.map (fun o2 =>
            if o2.id == o.id then { o2 with status := "Confirmed" } else o2),
          cartItems := db.cartItems.filter (fun ci => ci.user_id != u) } := by
    unfold applyCaptured
    rw [hio, hu]
    simp only [htr, htru, Bool.and_self, if_true, Option.getD_some, hfind, hst,
      beq_self_eq_true]
  have hrun := razorpay_webhook_verified hmacSha256 parse key_secret payload sig db
    "payment.captured" (some p) hsig hparse
  simp only [show (("payment.captured" : String) == "payment.captured") = true from rfl,
    if_true] at hrun
  rw [hrun] at h1
  injection h1 with ha hb
  subst ha
  subst hb
  have hfind1 : findOrderByRef (applyCaptured db p) o.id p.order_id
      = some { o with status := "Confirmed" } := by
    unfold findOrderByRef
    simp only [happly]
    rw [find?_orders_status_update]
    have hfo : db.orders.find?
        (fun o2 => o2.id == o.id && o2.transaction_id == some p.order_id) = some o := hfind
    rw [hfo]
    simp
  have hnoop : applyCaptured (applyCaptured db p) p = applyCaptured db p := by
    apply applyCaptured_noop
    intro o2 hf2
    rw [hio] at hf2
    simp only [Option.getD_some] at hf2
    rw [hfind1] at hf2
    injection hf2 with hf2
    rw [← hf2]
    rfl
  have hrun1 := razorpay_webhook_verified hmacSha256 parse key_secret payload sig
    (applyCaptured db p) "payment.captured" (some p) hsig hparse
  simp only [show (("payment.captured" : String) == "payment.captured") = true from rfl,
    if_true] at hrun1
  refine ⟨rfl, ?_, ?_, ?_⟩
  · simp only [happly]
  · simp only [happly]
  · rw [hrun1, hnoop]

/-- Claim C4 witness: the idempotency theorem applied to the concrete
store `dbW` and the captured event for order 7 / user 1. -/
theorem captured_webhook_idempotent_witness :
    (razorpay_webhook hmacConst parseCapturedU1 (some "secret") dbW "body" (some "SIG")).1
      = ("OK", 200) ∧
    (razorpay_webhook hmacConst parseCapturedU1 (some "secret") dbW "body" (some "SIG")).2.orders
      = dbW.orders.map (fun o2 =>
          if o2.id == wOrder.id then { o2 with status := "Confirmed" } else o2) ∧
    (razorpay_webhook hmacConst parseCapturedU1 (some "secret") dbW "body" (some "SIG")).2.cartItems
      = dbW.cartItems.filter (fun ci => ci.user_id != 1) ∧
    razorpay_webhook hmacConst parseCapturedU1 (some "secret")
      (razorpay_webhook hmacConst parseCapturedU1 (some "secret") dbW "body" (some "SIG")).2
      "body" (some "SIG")
      = (("OK", 200),
         (razorpay_webhook hmacConst parseCapturedU1 (some "secret") dbW "body" (some "SIG")).2) :=
  captured_webhook_idempotent hmacConst parseCapturedU1 "secret" "body" "SIG" dbW
    ⟨"pay_9", "rzp_1", some 7, some 1⟩ wOrder 1 _ _ rfl rfl rfl (by decide) rfl (by decide)
    rfl rfl rfl

/--
Claim C5.  An inbound webhook request with a missing signature header is
answered `Unauthorized` (401) with the store unchanged, and one whose
recomputed HMAC-SHA256 hexdigest over the raw payload differs from the
claimed header signature is rejected (`Signature mismatch`, 400) with the
store unchanged: in both cases the endpoint fails closed with zero state
mutation.
-/
theorem webhook_bad_signature_rejected_no_mutation
    (hmacSha256 : String → String → String) (parse : String → Parsed)
    (ks : Option String) (db : DB) (payload : String) (sigHeader : Option String) :
    (sigHeader = none →
      razorpay_webhook hmacSha256 parse ks db payload sigHeader
        = (("Unauthorized", 401), db)) ∧
    (∀ s key_secret, sigHeader = some s → ks = some key_secret →
      hmacSha256 key_secret payload ≠ s →
      razorpay_webhook hmacSha256 parse ks db payload sigHeader
        = (("Signature mismatch", 400), db)) := by
  constructor
  · intro h
    subst h
    rfl
  · intro s key_secret hs hk hne
    subst hs
    subst hk
    unfold razorpay_webhook
    simp only [beq_eq_false_iff_ne, ne_eq]
    rw [if_neg]
    simp only [beq_iff_eq]
    exact hne

/-- Claim C5 witness: a concrete tampered request (claimed signature
"WRONG" against recomputed "SIG") is rejected with the store unchanged. -/
theorem webhook_bad_signature_rejected_no_mutation_witness :
    razorpay_webhook hmacConst parseCapturedU1 (some "secret") dbW "body" (some "WRONG")
      = (("Signature mismatch", 400), dbW) :=
  (webhook_bad_signature_rejected_no_mutation hmacConst parseCapturedU1 (some "secret")
    dbW "body" (some "WRONG")).2 "WRONG" "secret" rfl rfl (by decide)

/--
Claim C6, evaluated at the failing input.  In `dbW`, order 7 is owned by
user 1, whose cart holds rows for products 1 and 2 (product 1 is not in
the order); user 2's cart holds a row for product 1.  A verified
`payment.captured` webhook for order 7 whose notes carry `user_id = 2`
confirms the order, deletes user 2's cart row, and leaves both of the
owner's cart rows in place: the handler honours the note's user id
without checking it against the order's owner, and deletes that user's
whole cart rather than the rows corresponding to the purchase.
-/
theorem captured_webhook_wrong_user_cart_cleared :
    wOrder.user_id = 1 ∧
    orderStatusOf (razorpay_webhook hmacConst parseCapturedU2 (some "secret") dbW "body"
      (some "SIG")).2 7 = some "Confirmed" ∧
    (razorpay_webhook hmacConst parseCapturedU2 (some "secret") dbW "body"
      (some "SIG")).2.cartItems = [⟨1, 1, 1, 2⟩, ⟨2, 1, 2, 1⟩] := by
  refine ⟨rfl, rfl, rfl⟩

/--
Claim C7, counterexample.  A verified `payment.failed` webhook whose notes
carry the internal order id but no user id is applied anyway: against
`dbW` it moves order 7 from `"Payment Initiated"` to `"Payment Failed"`,
while the claim says an event with a missing embedded user id is
acknowledged without any status change.
-/
theorem failed_event_missing_user_id_applied_cex :
    (razorpay_webhook hmacConst parseFailedNoUser (some "secret") dbW "body" (some "SIG")).1
      = ("OK", 200) ∧
    orderStatusOf (razorpay_webhook hmacConst parseFailedNoUser (some "secret") dbW "body"
      (some "SIG")).2 7 = some "Payment Failed" ∧
    ¬ orderStatusOf (razorpay_webhook hmacConst parseFailedNoUser (some "secret") dbW "body"
      (some "SIG")).2 7 = some "Payment Initiated" := by
  refine ⟨rfl, rfl, ?_⟩
  decide

/--
Claim C7, amended.  For a verified `payment.captured` event, a missing (or
zero, hence falsy) internal order id or user id in the notes is
acknowledged with `OK` and applied to nothing.  For a verified
`payment.failed` event only the internal order id is consulted: if it is
missing the event is acknowledged without applying, but the embedded user
id is never read on that path, so its absence does not stop the event.
-/
theorem incomplete_metadata_ack_no_apply
    (hmacSha256 : String → String → String) (parse : String → Parsed)
    (key_secret payload sig : String) (db : DB) (p : PaymentEntity)
    (hsig : hmacSha256 key_secret payload = sig) :
    (parse payload = .event "payment.captured" (some p) →
      (truthyNat p.internal_order_id = false ∨ truthyNat p.user_id = false) →
      razorpay_webhook hmacSha256 parse (some key_secret) db payload (some sig)
        = (("OK", 200), db)) ∧
    (parse payload = .event "payment.failed" (some p) →
      truthyNat p.internal_order_id = false →
      razorpay_webhook hmacSha256 parse (some key_secret) db payload (some sig)
        = (("OK", 200), db)) := by
  constructor
  · intro hparse hmiss
    have hrun := razorpay_webhook_verified hmacSha256 parse key_secret payload sig db
      "payment.captured" (some p) hsig hparse
    simp only [show (("payment.captured" : String) == "payment.captured") = true from rfl,
      if_true] at hrun
    rw [hrun]
    have : applyCaptured db p = db := by
      unfold applyCaptured
      rcases hmiss with hmiss | hmiss <;> simp [hmiss]
    rw [this]
  · intro hparse hmiss
    have hrun := razorpay_webhook_verified hmacSha256 parse key_secret payload sig db
      "payment.failed" (some p) hsig hparse
    simp only [show (("payment.failed" : String) == "payment.captured") = false from rfl,
      show (("payment.failed" : String) == "payment.failed") = true from rfl,
      Bool.false_eq_true, if_false, if_true, ite_false, ite_true] at hrun
    rw [hrun]
    have : applyFailed db p = db := by
      unfold applyFailed
      simp [hmiss]
    rw [this]

/-- Claim C7 witness: a captured event with no internal order id in its
notes is acknowledged against `dbW` without any state change. -/
theorem incomplete_metadata_ack_no_apply_witness :
    razorpay_webhook hmacConst parseCapturedNoId (some "secret") dbW "body" (some "SIG")
      = (("OK", 200), dbW) :=
  (incomplete_metadata_ack_no_apply hmacConst parseCapturedNoId "secret" "body" "SIG" dbW
    ⟨"pay_9", "rzp_1", none, some 1⟩ rfl).1 rfl (Or.inl rfl)

theorem firstInsufficient_updateProfile (db : DB) (uid : Nat) (a c : String)
    (cart : List CartItem) :
    firstInsufficient (updateProfile db uid a c) cart = firstInsufficient db cart := by
  induction cart with
  | nil => rfl
  | cons ci rest ih =>
    simp only [firstInsufficient, findProduct_updateProfile]
    cases hp : findProduct db ci.product_id
    · rfl
    · simp only [ih]

theorem mkOrderItems_updateProfile (db : DB) (uid : Nat) (a c : String) (oid : Nat)
    (cart : List CartItem) :
    ∀ s, mkOrderItems (updateProfile db uid a c) s oid cart = mkOrderItems db s oid cart := by
  induction cart with
  | nil => intro s; rfl
  | cons ci rest ih =>
    intro s
    simp only [mkOrderItems, findProduct_updateProfile, ih]

theorem cartTotal_isSome (db : DB) (cart : List CartItem)
    (hlook : ∀ ci ∈ cart, (findProduct db ci.product_id).isSome = true) :
    ∃ t, cartTotal db cart = some t := by
  induction cart with
  | nil => exact ⟨0, rfl⟩
  | cons ci rest ih =>
    obtain ⟨p, hp⟩ := Option.isSome_iff_exists.mp (hlook ci (List.mem_cons_self ci rest))
    obtain ⟨t, htl⟩ := ih (fun ci2 h2 => hlook ci2 (List.mem_cons_of_mem ci h2))
    exact ⟨p.price * ci.quantity + t, by simp only [cartTotal, hp, htl]⟩

theorem firstInsufficient_none (db : DB) (cart : List CartItem)
    (h : ∀ ci ∈ cart, ∃ p, findProduct db ci.product_id = some p ∧ ci.quantity ≤ p.stock) :
    firstInsufficient db cart = some none := by
  induction cart with
  | nil => rfl
  | cons ci rest ih =>
    obtain ⟨p, hp, hle⟩ := h ci (List.mem_cons_self ci rest)
    simp only [firstInsufficient, hp, if_neg (not_lt.mpr hle)]
    exact ih (fun ci2 h2 => h ci2 (List.mem_cons_of_mem ci h2))

theorem mkOrderItems_some (db : DB) (oid : Nat) (cart : List CartItem)
    (hlook : ∀ ci ∈ cart, (findProduct db ci.product_id).isSome = true) :
    ∀ s, ∃ items, mkOrderItems db s oid cart = some items := by
  induction cart with
  | nil => intro s; exact ⟨[], rfl⟩
  | cons ci rest ih =>
    intro s
    obtain ⟨p, hp⟩ := Option.isSome_iff_exists.mp (hlook ci (List.mem_cons_self ci rest))
    obtain ⟨items, hit⟩ := ih (fun ci2 h2 => hlook ci2 (List.mem_cons_of_mem ci h2)) (s + 1)
    exact ⟨⟨s, oid, ci.product_id, ci.quantity, p.price⟩ :: items,
      by simp only [mkOrderItems, hp, hit]⟩

theorem cartQty_cons (ci : CartItem) (rest : List CartItem) (pid : Nat) :
    cartQty (ci :: rest) pid
      = (if ci.product_id == pid then ci.quantity else 0) + cartQty rest pid := by
  unfold cartQty
  rw [List.filter_cons]
  cases hc : (ci.product_id == pid) <;> simp [hc]

/-- Stock after the reservation loop: every product's stock drops by
exactly the total quantity the cart holds of it. -/
theorem stock_after_reserveAll (cart : List CartItem) (prods : List Product) (pid : Nat) :
    (reserveAll prods cart).find? (fun p => p.id == pid)
    = (prods.find? (fun p => p.id == pid)).map
        (fun p => { p with stock := p.stock - cartQty cart pid }) := by
  induction cart generalizing prods with
  | nil =>
    cases hp : prods.find? (fun p => p.id == pid) <;>
      simp [reserveAll, cartQty, hp]
  | cons ci rest ih =>
    rw [reserveAll, ih]
    rw [find?_map_of_pred_eq
      (fun p : Product =>
        if p.id == ci.product_id then { p with stock := p.stock - ci.quantity } else p)
      (fun p : Product => p.id == pid)
      (by
        intro x
        by_cases hx : (x.id == ci.product_id) = true
        · simp [hx]
        · simp [hx])]
    cases hp : prods.find? (fun p => p.id == pid) with
    | none => rfl
    | some p =>
      have hpid := List.find?_some hp
      simp only [] at hpid
      have hpid2 : p.id = pid := by simpa using hpid
      simp only [Option.map_map, Option.map_some', Function.comp]
      rw [cartQty_cons]
      by_cases hc : (ci.product_id == pid) = true
      · have : (p.id == ci.product_id) = true := by
          have : ci.product_id = pid := by simpa using hc
          simp [hpid2, this]
        simp only [this, if_true, ite_true, hc]
        rw [sub_sub]
      · have : (p.id == ci.product_id) = false := by
          have hcp : ¬ ci.product_id = pid := by simpa using hc
          simp [hpid2]
          intro hcontra
          exact hcp hcontra.symm
        simp only [this, Bool.false_eq_true, if_false, ite_false, hc, zero_add]

/--
Claim C2, counterexample.  A cash-on-delivery checkout of the concrete
cart [1 unit of product 1] from `dbC` creates the order with status
`"Pending"` — not `"Confirmed"` as the claim states: the COD branch of
`checkout` commits the order without ever changing the initial status.
-/
theorem cod_checkout_status_pending_cex :
    (checkout dbC 1 "addr" "cn" "COD" true .failure).map (fun r2 => orderStatusOf r2.2 1)
      = some (some "Pending") ∧
    ¬ (checkout dbC 1 "addr" "cn" "COD" true .failure).map (fun r2 => orderStatusOf r2.2 1)
      = some (some "Confirmed") := by
  refine ⟨rfl, ?_⟩
  decide

/--
Claim C2, amended.  A cash-on-delivery checkout with every cart quantity
within stock creates the order in status `"Pending"` (not `"Confirmed"`),
decrements each product's stock by the total quantity the cart holds of
it, and deletes all of the user's cart items, in one committed
transaction.
-/
theorem cod_checkout_places_pending_order
    (db : DB) (uid : Nat) (a c : String) (cfg : Bool) (gw : GatewayResult) (u : User)
    (hu : findUser db uid = some u)
    (hne : (userCart db uid).isEmpty = false)
    (hlook : ∀ ci ∈ userCart db uid, (findProduct db ci.product_id).isSome = true)
    (hsuff : ∀ ci ∈ userCart db uid, ∀ p, findProduct db ci.product_id = some p →
      ci.quantity ≤ p.stock) :
    ∃ total items db2,
      checkout db uid a c "COD" cfg gw = some (.codPlaced db.nextOrderId, db2) ∧
      db2.orders = db.orders ++ [⟨db.nextOrderId, uid, total, "Pending", a, c, "COD", none⟩] ∧
      db2.orderItems = db.orderItems ++ items ∧
      userCart db2 uid = [] ∧
      (∀ pid, stockOf db2 pid
        = (stockOf db pid).map (fun s => s - cartQty (userCart db uid) pid)) := by
  obtain ⟨total, ht⟩ := cartTotal_isSome db (userCart db uid) hlook
  have hins : firstInsufficient (updateProfile db uid a c) (userCart db uid) = some none := by
    rw [firstInsufficient_updateProfile]
    refine firstInsufficient_none db (userCart db uid) ?_
    intro ci hci
    obtain ⟨p, hp⟩ := Option.isSome_iff_exists.mp (hlook ci hci)
    exact ⟨p, hp, hsuff ci hci p hp⟩
  obtain ⟨items, hmk0⟩ := mkOrderItems_some db db.nextOrderId (userCart db uid) hlook
    db.nextOrderItemId
  have hmk : mkOrderItems (updateProfile db uid a c)
      (updateProfile db uid a c).nextOrderItemId (updateProfile db uid a c).nextOrderId
      (userCart db uid) = some items := by
    rw [mkOrderItems_updateProfile]
    exact hmk0
  refine ⟨total, items,
    ⟨(updateProfile db uid a c).users,
     reserveAll db.products (userCart db uid),
     db.cartItems.filter (fun ci => ci.user_id != uid),
     db.orders ++ [⟨db.nextOrderId, uid, total, "Pending", a, c, "COD", none⟩],
     db.orderItems ++ items,
     db.nextCartItemId, db.nextOrderId + 1,
     db.nextOrderItemId + (userCart db uid).length⟩, ?_, rfl, rfl, ?_, ?_⟩
  · unfold checkout
    rw [hu]
    simp only []
    simp only [hne, Bool.false_eq_true, if_false, ite_false, ht, hins, hmk]
    rfl
  · show List.filter (fun ci => ci.user_id == uid)
      (List.filter (fun ci => ci.user_id != uid) db.cartItems) = []
    rw [List.filter_filter]
    have hfalse : (fun ci : CartItem => (ci.user_id == uid) && (ci.user_id != uid))
        = fun _ => false := by
      funext x
      by_cases hx : (x.user_id == uid) = true <;> simp [hx, bne]
    rw [hfalse, List.filter_false]
  · intro pid
    show ((reserveAll db.products (userCart db uid)).find?
        (fun p => p.id == pid)).map Product.stock
      = (stockOf db pid).map (fun s => s - cartQty (userCart db uid) pid)
    rw [stock_after_reserveAll]
    unfold stockOf findProduct
    cases hp : db.products.find? (fun p => p.id == pid) <;> simp [hp]

/-- Claim C2 witness: the amended theorem applied to the concrete store
`dbC` (cart of one unit of product 1, stock 5). -/
theorem cod_checkout_places_pending_order_witness :
    ∃ total items db2,
      checkout dbC 1 "addr" "cn" "COD" true .failure
        = some (.codPlaced dbC.nextOrderId, db2) ∧
      db2.orders = dbC.orders
        ++ [⟨dbC.nextOrderId, 1, total, "Pending", "addr", "cn", "COD", none⟩] ∧
      db2.orderItems = dbC.orderItems ++ items ∧
      userCart db2 1 = [] ∧
      (∀ pid, stockOf db2 pid
        = (stockOf dbC pid).map (fun s => s - cartQty (userCart dbC 1) pid)) :=
  cod_checkout_places_pending_order dbC 1 "addr" "cn" true .failure ⟨1, "a", "c"⟩
    rfl rfl (by decide) (by decide)

/--
Claim C3.  For an online payment mode (`"UPI"` or `"Debit Card"`), when
the gateway adapter call fails — the SDK raises, or the gateway is
unconfigured — the whole order-creation operation is rolled back as a
unit: the returned store has the order table, the order-item table and the
product table (hence every product's stock) exactly as before the call,
with no partial state persisted.
-/
theorem online_checkout_gateway_failure_rollback
    (db : DB) (uid : Nat) (a c mode : String) (cfg : Bool) (gw : GatewayResult)
    (r : CheckoutResult) (db' : DB)
    (hmode : mode = "UPI" ∨ mode = "Debit Card")
    (hfail : cfg = false ∨ gw = .failure)
    (h : checkout db uid a c mode cfg gw = some (r, db')) :
    db'.orders = db.orders ∧ db'.orderItems = db.orderItems ∧ db'.products = db.products := by
  have honline : (mode == "UPI" || mode == "Debit Card") = true := by
    rcases hmode with hm | hm <;> subst hm <;> rfl
  unfold checkout at h
  cases hu : findUser db uid
  · rw [hu] at h
    exact Option.noConfusion h
  · rw [hu] at h
    simp only [] at h
    cases he : (userCart db uid).isEmpty
    · simp only [he, Bool.false_eq_true, if_false, ite_false] at h
      cases ht : cartTotal db (userCart db uid)
      · simp only [ht] at h
        exact Option.noConfusion h
      · simp only [ht] at h
        cases hins : firstInsufficient (updateProfile db uid a c) (userCart db uid)
        · simp only [hins] at h
          exact Option.noConfusion h
        · rename_i insv
          cases insv
          · simp only [hins] at h
            cases hmk : mkOrderItems (updateProfile db uid a c)
                (updateProfile db uid a c).nextOrderItemId
                (updateProfile db uid a c).nextOrderId (userCart db uid)
            · simp only [hmk] at h
              exact Option.noConfusion h
            · simp only [hmk, honline, if_true, ite_true] at h
              cases hcfg : cfg
              · simp only [hcfg, Bool.false_eq_true, if_false, ite_false] at h
                injection h with h2
                injection h2 with hr hdb
                subst hdb
                exact ⟨rfl, rfl, rfl⟩
              · rcases hfail with hf | hf
                · rw [hf] at hcfg
                  exact Bool.noConfusion hcfg
                · subst hf
                  simp only [hcfg, if_true, ite_true] at h
                  injection h with h2
                  injection h2 with hr hdb
                  subst hdb
                  exact ⟨rfl, rfl, rfl⟩
          · simp only [hins] at h
            injection h with h2
            injection h2 with hr hdb
            subst hdb
            exact ⟨rfl, rfl, rfl⟩
    · simp only [he, if_true, ite_true] at h
      injection h with h2
      injection h2 with hr hdb
      subst hdb
      exact ⟨rfl, rfl, rfl⟩

/-- Claim C3 witness: a concrete online checkout from `dbC` whose gateway
call fails leaves orders, order items and products untouched. -/
theorem online_checkout_gateway_failure_rollback_witness :
    (updateProfile dbC 1 "addr" "cn").orders = dbC.orders ∧
    (updateProfile dbC 1 "addr" "cn").orderItems = dbC.orderItems ∧
    (updateProfile dbC 1 "addr" "cn").products = dbC.products :=
  online_checkout_gateway_failure_rollback dbC 1 "addr" "cn" "UPI" true .failure
    .gatewayError (updateProfile dbC 1 "addr" "cn") (Or.inl rfl) (Or.inr rfl) rfl

/--
Claim C10.  On a POST checkout by a logged-in user with a non-empty cart,
the user's stored address and contact number are overwritten with the
submitted values and committed before the stock check runs: a checkout
that fails the stock check (`firstInsufficient` names an offending
product) creates no order, changes no stock, yet returns the store with
the user's profile permanently updated.
-/
theorem checkout_profile_committed_before_stock_check
    (db : DB) (uid : Nat) (a c mode : String) (cfg : Bool) (gw : GatewayResult)
    (u : User) (total : Int) (pid : Nat)
    (hu : findUser db uid = some u)
    (hne : (userCart db uid).isEmpty = false)
    (ht : cartTotal db (userCart db uid) = some total)
    (hins : firstInsufficient (updateProfile db uid a c) (userCart db uid) = some (some pid)) :
    checkout db uid a c mode cfg gw
      = some (.insufficientStock pid, updateProfile db uid a c) ∧
    (updateProfile db uid a c).orders = db.orders ∧
    (updateProfile db uid a c).orderItems = db.orderItems ∧
    (updateProfile db uid a c).products = db.products ∧
    findUser (updateProfile db uid a c) uid
      = some { u with address := a, contact_number := c } := by
  refine ⟨?_, rfl, rfl, rfl, ?_⟩
  · unfold checkout
    rw [hu]
    simp only [hne, Bool.false_eq_true, if_false, ite_false, ht, hins]
  · unfold findUser updateProfile
    rw [find?_map_of_pred_eq
      (fun u2 : User => if u2.id == uid then { u2 with address := a, contact_number := c } else u2)
      (fun u2 : User => u2.id == uid)
      (by
        intro x
        by_cases hx : (x.id == uid) = true
        · simp [hx]
        · simp [hx])]
    have hfu : db.users.find? (fun u2 => u2.id == uid) = some u := hu
    rw [hfu]
    have hid := List.find?_some hfu
    simp only [] at hid
    have hid2 : u.id = uid := by simpa using hid
    simp [hid2]

/-- Claim C10 witness: in `dbI` the cart asks for 2 units of product 1 but
only 1 is in stock; checkout fails the stock check yet the profile update
survives. -/
theorem checkout_profile_committed_before_stock_check_witness :
    checkout dbI 1 "NEWADDR" "NEWCN" "COD" true .failure
      = some (.insufficientStock 1, updateProfile dbI 1 "NEWADDR" "NEWCN") ∧
    (updateProfile dbI 1 "NEWADDR" "NEWCN").orders = dbI.orders ∧
    (updateProfile dbI 1 "NEWADDR" "NEWCN").orderItems = dbI.orderItems ∧
    (updateProfile dbI 1 "NEWADDR" "NEWCN").products = dbI.products ∧
    findUser (updateProfile dbI 1 "NEWADDR" "NEWCN") 1
      = some ⟨1, "NEWADDR", "NEWCN"⟩ :=
  checkout_profile_committed_before_stock_check dbI 1 "NEWADDR" "NEWCN" "COD" true .failure
    ⟨1, "a", "c"⟩ 20 1 rfl rfl rfl rfl

/--
Claim C8, counterexample.  The interval bound `[1, product.stock]` is not
an invariant of the four operations: starting from `dbC0` (empty cart,
product 2 with stock 1), where the invariant holds, adding product 2 to
the cart and then checking out online successfully leaves the cart row
(quantity 1) in place while stock drops to 0 — the retained cart item's
quantity now exceeds the product's stock.
-/
theorem cart_bound_not_invariant_cex :
    cartInvB dbC0 = true ∧ (runOps dbC0 opsC8).map cartInvB = some false := by
  exact ⟨rfl, rfl⟩

/--
Claim C8, amended.  The bound holds for the cart row that `add_to_cart`
creates or updates: under primary-key-unique cart rows with positive
quantities, every cart row present after `add_to_cart` that was not
already in the store references an existing product and has quantity in
`[1, product.stock]`.  The bound is established at mutation time only; it
is not preserved by checkout or webhook operations (an online checkout
decrements stock while retaining the cart rows).
-/
theorem add_to_cart_touched_rows_bounded
    (db : DB) (uid pid : Nat) (db' : DB)
    (hids : (db.cartItems.map CartItem.id).Nodup)
    (hpos : ∀ ci ∈ db.cartItems, 1 ≤ ci.quantity)
    (h : add_to_cart db uid pid = some db') :
    ∀ ci2 ∈ db'.cartItems, ci2 ∉ db.cartItems →
      ∃ p, findProduct db' ci2.product_id = some p
        ∧ 1 ≤ ci2.quantity ∧ ci2.quantity ≤ p.stock := by
  unfold add_to_cart at h
  cases hp : findProduct db pid with
  | none =>
    rw [hp] at h
    exact Option.noConfusion h
  | some product =>
    rw [hp] at h
    simp only [] at h
    by_cases hs : product.stock ≤ 0
    · rw [if_pos hs] at h
      injection h with h
      subst h
      intro ci2 hmem hnot
      exact absurd hmem hnot
    · rw [if_neg hs] at h
      cases hf : db.cartItems.find? (fun ci => ci.user_id == uid && ci.product_id == pid) with
      | some ci0 =>
        simp only [hf] at h
        by_cases hq : ci0.quantity ≥ product.stock
        · rw [if_pos hq] at h
          injection h with h
          subst h
          intro ci2 hmem hnot
          exact absurd hmem hnot
        · rw [if_neg hq] at h
          injection h with h
          subst h
          intro ci2 hmem hnot
          simp only [List.mem_map] at hmem
          obtain ⟨x, hx, hfx⟩ := hmem
          by_cases hxid : (x.id == ci0.id) = true
          · have hx0 : x = ci0 :=
              List.inj_on_of_nodup_map hids hx
                (List.mem_of_find?_eq_some hf) (by simpa using hxid)
            subst hx0
            rw [if_pos hxid] at hfx
            have hprops := List.find?_some hf
            simp only [Bool.and_eq_true] at hprops
            have hcipid : x.product_id = pid := by simpa using hprops.2
            refine ⟨product, ?_, ?_, ?_⟩
            · rw [← hfx]
              show findProduct db x.product_id = some product
              rw [hcipid]
              exact hp
            · rw [← hfx]
              show 1 ≤ x.quantity + 1
              have := hpos x hx
              omega
            · rw [← hfx]
              show x.quantity + 1 ≤ product.stock
              omega
          · rw [if_neg hxid] at hfx
            subst hfx
            exact absurd hx hnot
      | none =>
        simp only [hf] at h
        injection h with h
        subst h
        intro ci2 hmem hnot
        rw [List.mem_append] at hmem
        rcases hmem with hmem | hmem
        · exact absurd hmem hnot
        · rw [List.mem_singleton] at hmem
          subst hmem
          refine ⟨product, ?_, ?_, ?_⟩
          · exact hp
          · simp only []
            omega
          · simp only []
            omega

/-- Claim C8 witness: adding product 2 (stock 1) to the empty cart of
`dbC0` yields `dbAdd`, whose one new row satisfies the bound. -/
theorem add_to_cart_touched_rows_bounded_witness :
    (dbC0.cartItems.map CartItem.id).Nodup ∧
    (∀ ci ∈ dbC0.cartItems, 1 ≤ ci.quantity) ∧
    add_to_cart dbC0 1 2 = some dbAdd ∧
    (∀ ci2 ∈ dbAdd.cartItems, ci2 ∉ dbC0.cartItems →
      ∃ p, findProduct dbAdd ci2.product_id = some p
        ∧ 1 ≤ ci2.quantity ∧ ci2.quantity ≤ p.stock) :=
  ⟨by decide, by decide, by decide,
   add_to_cart_touched_rows_bounded dbC0 1 2 dbAdd (by decide) (by decide) (by decide)⟩

end Shop
